import Mathlib

/-!
Verification of the `interprocess` IPC transport layer (Windows named-pipe
engine and Unix-domain-socket ancillary dispatcher) against its
natural-language specification.

The embedding is shallow: OS syscalls are modelled by passing their outcomes
in as explicit arguments (or, for the message pipe, by a small state model of
the pipe's message queue), and the Rust functions under inspection are
translated into Lean functions over those outcomes.  Machine integers that
matter (Win32 error codes, `DWORD` timeout values) are plain `Nat`s, since no
arithmetic overflow is involved anywhere in the translated code.
-/

/-! ## Win32 constants

Values of the `winapi` crate constants imported by the source
(`shared::winerror`, `um::winbase`). -/

/-- Win32 `ERROR_PIPE_BUSY` (all pipe instances are busy). -/
def ERROR_PIPE_BUSY : Nat := 231

/-- Win32 `ERROR_PIPE_NOT_CONNECTED`. -/
def ERROR_PIPE_NOT_CONNECTED : Nat := 233

/-- Win32 `ERROR_MORE_DATA` (message does not fit in the supplied buffer). -/
def ERROR_MORE_DATA : Nat := 234

/-- Win32 `NMPWAIT_USE_DEFAULT_WAIT` for `WaitNamedPipeW`: use the default
timeout configured by the server at pipe creation. -/
def NMPWAIT_USE_DEFAULT_WAIT : Nat := 0x00000000

/-- Win32 `NMPWAIT_NOWAIT` for `WaitNamedPipeW`: do not wait, return
immediately. -/
def NMPWAIT_NOWAIT : Nat := 0x00000001

/-- Win32 `NMPWAIT_WAIT_FOREVER` for `WaitNamedPipeW`: wait indefinitely. -/
def NMPWAIT_WAIT_FOREVER : Nat := 0xffffffff

/-! ## The `std::io::Error` model

Only the parts of `std::io::Error` that the translated code inspects are
modelled: the `ErrorKind`, the raw OS error code (absent for synthesized
errors), and the custom inner error used by `io::Error::new`. -/

/-- The `std::io::ErrorKind` values the source distinguishes. -/
inductive IOErrorKind where
  | BrokenPipe
  | InvalidInput
  | Other
  deriving DecidableEq, Repr

/-- Custom inner payloads attached via `io::Error::new`. -/
inductive CustomError where
  | PartialMsgWrite
  deriving DecidableEq, Repr

/-- Model of `std::io::Error`: kind, raw OS error code (if the error came
from the OS), custom inner error (if synthesized by the crate). -/
structure IoError where
  kind : IOErrorKind
  rawOsError : Option Nat
  custom : Option CustomError
  deriving DecidableEq, Repr

/-- The error produced by
`io::Error::new(io::ErrorKind::Other, PartialMsgWriteError)`
(src/src/os/windows/named_pipe/stream.rs, `impl Write for
MsgWriterPipeStream` and `DuplexMsgPipeStream`): kind `Other`, no raw OS
code. -/
def partialMsgWriteError : IoError := ⟨.Other, none, some .PartialMsgWrite⟩

/-- Modelled from the spec: the `ok_or_ret_errno!` macro (its defining file
`src/macros/ok_or_ret_errno.rs` is not present; only its uses are).  Per the
spec, §7: OS errors are "propagated verbatim with the underlying OS error
code preserved" — on success the value is returned, otherwise the last OS
error.  `lastOsError` is the value `io::Error::last_os_error()` would report
at the call site. -/
def ok_or_ret_errno {α : Type} (success : Bool) (value : α) (lastOsError : IoError) :
    Except IoError α :=
  if success then .ok value else .error lastOsError

/-- `is_eof_like` (src/src/os/windows/mod.rs:165-167): a broken-pipe-like
error is one of kind `BrokenPipe` or with raw OS code
`ERROR_PIPE_NOT_CONNECTED`. -/
def is_eof_like (e : IoError) : Bool :=
  e.kind == .BrokenPipe || e.rawOsError == some ERROR_PIPE_NOT_CONNECTED

/-! ## `FileHandle` I/O (src/src/os/windows/mod.rs)

Each method performs one syscall (`ReadFile` / `WriteFile` /
`FlushFileBuffers`) and post-processes its outcome.  The syscall outcome is
passed in: `success` is whether the raw call returned nonzero,
`num_bytes_read` / `bytes_written` is the reported byte count, and
`lastOsError` is what `io::Error::last_os_error()` yields on failure. -/

/-- `FileHandle::read` (src/src/os/windows/mod.rs:84-104): wraps `ReadFile`;
a broken-pipe-like failure is remapped to a successful 0-byte read. -/
def FileHandle.read (success : Bool) (num_bytes_read : Nat) (lastOsError : IoError) :
    Except IoError Nat :=
  match ok_or_ret_errno success num_bytes_read lastOsError with
  | .error e => if is_eof_like e then .ok 0 else .error e
  | .ok n => .ok n

/-- `FileHandle::write` (src/src/os/windows/mod.rs:105-122): wraps
`WriteFile`; no error remapping whatsoever. -/
def FileHandle.write (success : Bool) (bytes_written : Nat) (lastOsError : IoError) :
    Except IoError Nat :=
  ok_or_ret_errno success bytes_written lastOsError

/-- `FileHandle::flush_hndl` (src/src/os/windows/mod.rs:127-134): wraps
`FlushFileBuffers`; a broken-pipe-like failure is remapped to `Ok(())`. -/
def FileHandle.flush_hndl (success : Bool) (lastOsError : IoError) :
    Except IoError Unit :=
  match ok_or_ret_errno success () lastOsError with
  | .error e => if is_eof_like e then .ok () else .error e
  | .ok u => .ok u

/-! ## Message-typed writers (claim C4) -/

/-- `impl Write for MsgWriterPipeStream`
(src/src/os/windows/named_pipe/stream.rs:382-389): `write_result` is the
outcome of `self.ops().write(buf)`; a short accepted count becomes a
`PartialMsgWriteError`. -/
def msg_writer_pipe_stream_write (buf : List Nat) (write_result : Except IoError Nat) :
    Except IoError Nat :=
  match write_result with
  | .error e => .error e
  | .ok n => if n = buf.length then .ok buf.length else .error partialMsgWriteError

/-- `impl Write for DuplexMsgPipeStream`
(src/src/os/windows/named_pipe/stream.rs:408-415): identical body to the
`MsgWriterPipeStream` implementation. -/
def duplex_msg_pipe_stream_write (buf : List Nat) (write_result : Except IoError Nat) :
    Except IoError Nat :=
  match write_result with
  | .error e => .error e
  | .ok n => if n = buf.length then .ok buf.length else .error partialMsgWriteError

/-- `PipeStream::send` (src/src/os/windows/named_pipe/stream/impls/mod.rs:
160-166): plainly forwards to `self.raw.handle.write(buf)` with no check of
the accepted byte count. -/
def PipeStream_send (buf : List Nat) (success : Bool) (bytes_written : Nat)
    (lastOsError : IoError) : Except IoError Nat :=
  FileHandle.write success bytes_written lastOsError

/-! ## `WaitTimeout` (claim C9) -/

/-- `struct WaitTimeout(u32)` (src/src/os/windows/named_pipe/stream.rs:514-
516). -/
structure WaitTimeout where
  val : Nat
  deriving DecidableEq, Repr

/-- `WaitTimeout::DEFAULT` (src/src/os/windows/named_pipe/stream.rs:518):
`Self(0x00000000)`. -/
def WaitTimeout.DEFAULT : WaitTimeout := ⟨0x00000000⟩

/-! # Claim theorems (first group) -/

/-- Claim C1: broken-pipe-like OS errors (kind `BrokenPipe` or raw code
`ERROR_PIPE_NOT_CONNECTED`) are remapped to success on read (a 0-byte read)
and on flush (`Ok(())`), but a write hitting the same error propagates it
unchanged. -/
theorem claim_C1_broken_pipe_asymmetry (e : IoError) (n m : Nat)
    (h : e.kind = .BrokenPipe ∨ e.rawOsError = some ERROR_PIPE_NOT_CONNECTED) :
    FileHandle.read false n e = .ok 0
    ∧ FileHandle.flush_hndl false e = .ok ()
    ∧ FileHandle.write false m e = .error e := by
  have heof : is_eof_like e = true := by
    rcases h with h | h <;> simp [is_eof_like, h]
  refine ⟨?_, ?_, ?_⟩ <;>
    simp [FileHandle.read, FileHandle.flush_hndl, FileHandle.write,
      ok_or_ret_errno, heof]

/-- Witness for C1 at the concrete error `ERROR_BROKEN_PIPE` (raw code 109,
kind `BrokenPipe`). -/
theorem claim_C1_witness :
    FileHandle.read false 5 ⟨.BrokenPipe, some 109, none⟩ = .ok 0
    ∧ FileHandle.flush_hndl false ⟨.BrokenPipe, some 109, none⟩ = .ok ()
    ∧ FileHandle.write false 7 ⟨.BrokenPipe, some 109, none⟩
        = .error ⟨.BrokenPipe, some 109, none⟩ :=
  claim_C1_broken_pipe_asymmetry ⟨.BrokenPipe, some 109, none⟩ 5 7 (.inl rfl)

/-- Claim C4, counterexample: `PipeStream::send` is a message-mode send
operation, yet when the OS accepts 1 byte of a 2-byte buffer it returns
`Ok(1)` — a success reporting a short byte count — contradicting the claim
that every such operation returns an error. -/
theorem claim_C4_counterexample :
    PipeStream_send [1, 2] true 1 ⟨.Other, none, none⟩ = .ok 1
    ∧ (1 : Nat) < List.length [1, 2] := by
  constructor
  · rfl
  · decide

/-- Claim C4, amended: the message-typed `Write` implementations
(`MsgWriterPipeStream`, `DuplexMsgPipeStream`) turn every short accepted
count into a `PartialMsgWriteError` and never report a short success, while
`PipeStream::send` returns whatever count the OS accepted as a success. -/
theorem claim_C4_partial_write_rejected (buf : List Nat) (wr : Except IoError Nat) :
    (∀ n, wr = .ok n → n ≠ buf.length →
        msg_writer_pipe_stream_write buf wr = .error partialMsgWriteError
        ∧ duplex_msg_pipe_stream_write buf wr = .error partialMsgWriteError)
    ∧ (wr = .ok buf.length →
        msg_writer_pipe_stream_write buf wr = .ok buf.length)
    ∧ (∀ e, wr = .error e → msg_writer_pipe_stream_write buf wr = .error e)
    ∧ (∀ n e, PipeStream_send buf true n e = .ok n) := by
  refine ⟨?_, ?_, ?_, ?_⟩
  · rintro n rfl hne
    constructor <;> simp [msg_writer_pipe_stream_write, duplex_msg_pipe_stream_write, hne]
  · rintro rfl
    simp [msg_writer_pipe_stream_write]
  · rintro e rfl
    rfl
  · intro n e
    rfl

/-- Witness for the amended C4: a 2-byte message of which the OS accepted
only 1 byte is rejected with `PartialMsgWriteError`. -/
theorem claim_C4_witness :
    msg_writer_pipe_stream_write [1, 2] (.ok 1) = .error partialMsgWriteError
    ∧ duplex_msg_pipe_stream_write [1, 2] (.ok 1) = .error partialMsgWriteError :=
  (claim_C4_partial_write_rejected [1, 2] (.ok 1)).1 1 rfl (by decide)

/-- Claim C9, counterexample: `WaitTimeout::DEFAULT` is `0x00000000`, which
is the OS `NMPWAIT_USE_DEFAULT_WAIT` value ("use the wait duration configured
by the server"), not the `NMPWAIT_NOWAIT` (`0x00000001`) value that denotes
the return-immediately behavior of `WaitNamedPipeW`. -/
theorem claim_C9_counterexample :
    WaitTimeout.DEFAULT.val = NMPWAIT_USE_DEFAULT_WAIT
    ∧ WaitTimeout.DEFAULT.val ≠ NMPWAIT_NOWAIT := by
  constructor
  · rfl
  · decide

/-- Claim C9, amended: the default `WaitTimeout`, the one the busy-retry
loop uses, is `0x00000000` — the OS use-the-server-configured-default-wait
value — and in particular is not the `0xffffffff` infinite-wait value. -/
theorem claim_C9_default_not_forever :
    WaitTimeout.DEFAULT.val = NMPWAIT_USE_DEFAULT_WAIT
    ∧ WaitTimeout.DEFAULT.val ≠ NMPWAIT_WAIT_FOREVER := by
  constructor
  · rfl
  · decide

/-! ## The message-mode pipe model (claims C2, C3, C10)

`RawPipeStream::try_recv_msg` / `recv_msg`
(src/src/os/windows/named_pipe/stream/impls/mod.rs:53-90) interact with the
OS through two operations: `peek_msg_len` (a `PeekNamedPipe` wrapper, not
under src/) and `FileHandle.read` on a pipe in message read mode.  The pipe
is modelled as a queue of `pending` messages plus a queue of `incoming`
messages: an `incoming` message arrives exactly when a blocking read finds
`pending` empty, which is how the zero-length-probe race described in the
source comment (lines 61-64) is reproduced.  A message is a `List Nat` of
byte values.  The model covers a connected pipe; disconnection errors are
out of its scope. -/

/-- Pipe state: messages already queued, followed by messages that will
arrive while a read blocks. -/
structure Pipe where
  pending : List (List Nat)
  incoming : List (List Nat)
  deriving DecidableEq, Repr

/-- The `io::Error` for a Win32 `ERROR_MORE_DATA` failure. -/
def err_more_data : IoError := ⟨.Other, some ERROR_MORE_DATA, none⟩

/-- Modelled from the spec: `peek_msg_len` (defined outside src/) "peeks the
pending message's length without consuming it"; `PeekNamedPipe` reports 0
bytes when no message is pending. -/
def peek_msg_len : Pipe → Nat
  | ⟨[], _⟩ => 0
  | ⟨m :: _, _⟩ => m.length

/-- `FileHandle.read` on a message-mode pipe with a buffer of length
`buflen` (documented `ReadFile` message-mode semantics): blocks when nothing
is pending and nothing arrives (`none`); delivers the front message whole
when it fits; fails with `ERROR_MORE_DATA` when it does not fit, placing the
first `buflen` bytes in the buffer and leaving the remainder queued.
Returns (call outcome, bytes placed in the buffer, pipe state after the
call). -/
def msg_read (buflen : Nat) : Pipe → Option (Except IoError Nat × List Nat × Pipe)
  | ⟨[], []⟩ => none
  | ⟨[], m :: inc⟩ =>
    if m.length ≤ buflen then some (.ok m.length, m, ⟨[], inc⟩)
    else some (.error err_more_data, m.take buflen, ⟨[m.drop buflen], inc⟩)
  | ⟨m :: rest, inc⟩ =>
    if m.length ≤ buflen then some (.ok m.length, m, ⟨rest, inc⟩)
    else some (.error err_more_data, m.take buflen, ⟨m.drop buflen :: rest, inc⟩)

/-- `TryRecvResult` (declared in `reliable_recv_msg`, used at
src/src/os/windows/named_pipe/stream/impls/mod.rs:73): reported message size
and whether it fit in the caller's buffer. -/
structure TryRecvResult where
  size : Nat
  fit : Bool
  deriving DecidableEq, Repr

/-- `RecvResult` (used at src/src/os/windows/named_pipe/stream/impls/mod.rs:
78 and 88): the message either fit in the caller's buffer (`Fit`) or is
returned in a freshly allocated buffer (`Alloc`). -/
inductive RecvResult where
  | Fit (size : Nat)
  | Alloc (buf : List Nat)
  deriving DecidableEq, Repr

/-- The loop body of `RawPipeStream::try_recv_msg`
(src/src/os/windows/named_pipe/stream/impls/mod.rs:53-74), with explicit
fuel standing in for the `while size == 0` loop; `none` means the call
blocks (or the fuel ran out, which the chosen top-level fuel never lets
happen on a state the loop terminates on).  Each iteration peeks the pending
length, computes `fit = buf.len() >= size`, and if `fit` performs the real
read on `buf[0..size]`; an `ERROR_MORE_DATA` from that read re-enters the
loop (`continue`), a 0-byte read re-enters it via the `size == 0` loop
condition, and `!fit` breaks out leaving the message queued.  Returns
(outcome carrying `TryRecvResult`, bytes written into the caller's buffer,
pipe state after the call). -/
def try_recv_msg_go (buflen : Nat) :
    Nat → Pipe → Option (Except IoError TryRecvResult × List Nat × Pipe)
  | 0, _ => none
  | fuel + 1, p =>
    if peek_msg_len p ≤ buflen then
      match msg_read (peek_msg_len p) p with
      | none => none
      | some (.error e, written, q) =>
        if e.rawOsError = some ERROR_MORE_DATA then
          if peek_msg_len p = 0 then try_recv_msg_go buflen fuel q
          else some (.ok ⟨peek_msg_len p, true⟩, written, q)
        else some (.error e, written, q)
      | some (.ok nsz, written, q) =>
        if nsz = 0 then try_recv_msg_go buflen fuel q
        else some (.ok ⟨nsz, true⟩, written, q)
    else
      some (.ok ⟨peek_msg_len p, false⟩, [], p)

/-- Fuel bound under which `try_recv_msg_go` never runs out on a state its
loop terminates on: every looping iteration either consumes a pending
zero-length message or moves one incoming message into `pending`. -/
def pipeMeasure (p : Pipe) : Nat := p.pending.length + 2 * p.incoming.length

/-- `RawPipeStream::try_recv_msg`
(src/src/os/windows/named_pipe/stream/impls/mod.rs:53-74). -/
def try_recv_msg (buflen : Nat) (p : Pipe) :
    Option (Except IoError TryRecvResult × List Nat × Pipe) :=
  try_recv_msg_go buflen (pipeMeasure p + 1) p

/-- `RawPipeStream::recv_msg`
(src/src/os/windows/named_pipe/stream/impls/mod.rs:75-90): uses
`try_recv_msg`; on `fit` reports `Fit(size)`; otherwise allocates
`Vec::with_capacity(size)`, reads the message into it, sets its length to
the read's byte count and returns it as `Alloc`. -/
def recv_msg (buflen : Nat) (p : Pipe) :
    Option (Except IoError RecvResult × List Nat × Pipe) :=
  match try_recv_msg buflen p with
  | none => none
  | some (.error e, written, q) => some (.error e, written, q)
  | some (.ok tr, written, q) =>
    if tr.fit then some (.ok (.Fit tr.size), written, q)
    else
      match msg_read tr.size q with
      | none => none
      | some (.error e, _vec, q2) => some (.error e, written, q2)
      | some (.ok nsz, vec, q2) => some (.ok (.Alloc (vec.take nsz)), written, q2)

/-! ## Properties of the receive loop -/

/-- Helper: every successful outcome of the `try_recv_msg` loop carries a
strictly positive size, whatever the fuel. -/
theorem try_recv_go_pos (buflen : Nat) :
    ∀ (fuel : Nat) (p : Pipe) (r : TryRecvResult) (w : List Nat) (q : Pipe),
      try_recv_msg_go buflen fuel p = some (.ok r, w, q) → 0 < r.size := by
  intro fuel
  induction fuel with
  | zero =>
    intro p r w q h
    simp [try_recv_msg_go] at h
  | succ n ih =>
    intro p r w q h
    unfold try_recv_msg_go at h
    split at h
    · split at h
      · exact Option.noConfusion h
      · split at h
        · split at h
          · exact ih _ _ _ _ h
          · next hz =>
              simp only [Option.some.injEq, Prod.mk.injEq, Except.ok.injEq] at h
              obtain ⟨hr, -, -⟩ := h
              subst hr
              exact Nat.pos_of_ne_zero hz
        · simp at h
      · split at h
        · exact ih _ _ _ _ h
        · next hz =>
            simp only [Option.some.injEq, Prod.mk.injEq, Except.ok.injEq] at h
            obtain ⟨hr, -, -⟩ := h
            subst hr
            exact Nat.pos_of_ne_zero hz
    · next hfit =>
        simp only [Option.some.injEq, Prod.mk.injEq, Except.ok.injEq] at h
        obtain ⟨hr, -, -⟩ := h
        subst hr
        exact Nat.lt_of_le_of_lt (Nat.zero_le buflen) (Nat.lt_of_not_le hfit)

/-- Helper: the `try_recv_msg` loop never lets an `ERROR_MORE_DATA` failure
out: every error it surfaces has a different OS code. -/
theorem try_recv_go_no_err_more_data (buflen : Nat) :
    ∀ (fuel : Nat) (p : Pipe) (e : IoError) (w : List Nat) (q : Pipe),
      try_recv_msg_go buflen fuel p = some (.error e, w, q) →
      e.rawOsError ≠ some ERROR_MORE_DATA := by
  intro fuel
  induction fuel with
  | zero =>
    intro p e w q h
    simp [try_recv_msg_go] at h
  | succ n ih =>
    intro p e w q h
    unfold try_recv_msg_go at h
    split at h
    · split at h
      · exact Option.noConfusion h
      · split at h
        · split at h
          · exact ih _ _ _ _ h
          · simp at h
        · next hmd =>
            simp only [Option.some.injEq, Prod.mk.injEq, Except.error.injEq] at h
            obtain ⟨he, -, -⟩ := h
            subst he
            exact hmd
      · split at h
        · exact ih _ _ _ _ h
        · simp at h
    · simp at h

/-- Helper: one loop iteration on a pipe whose front pending message `m` is
nonempty either consumes `m` whole (it fits) or leaves the pipe untouched
(it does not fit). -/
theorem try_recv_go_front (buflen fuel : Nat) (m : List Nat)
    (rest inc : List (List Nat)) (hm : 0 < m.length) :
    (m.length ≤ buflen →
      try_recv_msg_go buflen (fuel + 1) ⟨m :: rest, inc⟩
        = some (.ok ⟨m.length, true⟩, m, ⟨rest, inc⟩))
    ∧ (buflen < m.length →
      try_recv_msg_go buflen (fuel + 1) ⟨m :: rest, inc⟩
        = some (.ok ⟨m.length, false⟩, [], ⟨m :: rest, inc⟩)) := by
  constructor
  · intro hle
    unfold try_recv_msg_go
    simp [peek_msg_len, msg_read, hle, hm.ne']
  · intro hlt
    unfold try_recv_msg_go
    simp [peek_msg_len, Nat.not_le.mpr hlt]

/-- Helper: the zero-length-probe race.  With nothing pending and a nonempty
message about to arrive, the probing zero-length read hits
`ERROR_MORE_DATA`, which makes the loop continue on the state where the
message is now pending. -/
theorem try_recv_go_race (buflen fuel : Nat) (m : List Nat)
    (inc : List (List Nat)) (hm : 0 < m.length) :
    try_recv_msg_go buflen (fuel + 1) ⟨[], m :: inc⟩
      = try_recv_msg_go buflen fuel ⟨[m], inc⟩ := by
  conv_lhs => unfold try_recv_msg_go
  simp [peek_msg_len, msg_read, Nat.not_le.mpr hm, err_more_data, ERROR_MORE_DATA]

/-- Claim C3: `try_recv_msg` peeks the pending message's length without
consuming it; when the message fits the real read is performed and
`{size, fit = true}` is returned with the message bytes; when it does not
fit, `{size, fit = false}` is returned and the pipe state is unchanged (the
message stays queued); the `ERROR_MORE_DATA` hit by the zero-length probe
while a message is arriving is retried internally (the arriving message is
delivered normally), and no `ERROR_MORE_DATA` failure is ever surfaced to
the caller. -/
theorem claim_C3_try_recv_msg (buflen : Nat) (m : List Nat)
    (rest inc : List (List Nat)) (hm : 0 < m.length) :
    (m.length ≤ buflen →
      try_recv_msg buflen ⟨m :: rest, inc⟩
        = some (.ok ⟨m.length, true⟩, m, ⟨rest, inc⟩))
    ∧ (buflen < m.length →
      try_recv_msg buflen ⟨m :: rest, inc⟩
        = some (.ok ⟨m.length, false⟩, [], ⟨m :: rest, inc⟩))
    ∧ (m.length ≤ buflen →
      try_recv_msg buflen ⟨[], m :: inc⟩
        = some (.ok ⟨m.length, true⟩, m, ⟨[], inc⟩))
    ∧ (∀ (fuel : Nat) (p : Pipe) (e : IoError) (w : List Nat) (q : Pipe),
      try_recv_msg_go buflen fuel p = some (.error e, w, q) →
      e.rawOsError ≠ some ERROR_MORE_DATA) := by
  refine ⟨?_, ?_, ?_, try_recv_go_no_err_more_data buflen⟩
  · intro hle
    exact (try_recv_go_front buflen (pipeMeasure ⟨m :: rest, inc⟩) m rest inc hm).1 hle
  · intro hlt
    exact (try_recv_go_front buflen (pipeMeasure ⟨m :: rest, inc⟩) m rest inc hm).2 hlt
  · intro hle
    have h1 : pipeMeasure ⟨[], m :: inc⟩ + 1 = ((2 * inc.length + 1) + 1) + 1 := by
      simp [pipeMeasure]
      omega
    rw [try_recv_msg, h1, try_recv_go_race buflen ((2 * inc.length + 1) + 1) m inc hm]
    exact (try_recv_go_front buflen (2 * inc.length + 1) m [] inc hm).1 hle

/-- Witness for C3: a 2-byte pending message is delivered whole into a
4-byte buffer; the same message is reported as `{size = 2, fit = false}` and
left queued for a 1-byte buffer; and the arriving-message race delivers the
message whole. -/
theorem claim_C3_witness :
    try_recv_msg 4 ⟨[[7, 8]], []⟩ = some (.ok ⟨2, true⟩, [7, 8], ⟨[], []⟩)
    ∧ try_recv_msg 1 ⟨[[7, 8]], []⟩ = some (.ok ⟨2, false⟩, [], ⟨[[7, 8]], []⟩)
    ∧ try_recv_msg 4 ⟨[], [[7, 8]]⟩ = some (.ok ⟨2, true⟩, [7, 8], ⟨[], []⟩) :=
  ⟨(claim_C3_try_recv_msg 4 [7, 8] [] [] (by decide)).1 (by decide),
   (claim_C3_try_recv_msg 1 [7, 8] [] [] (by decide)).2.1 (by decide),
   (claim_C3_try_recv_msg 4 [7, 8] [] [] (by decide)).2.2.1 (by decide)⟩

/-- Claim C10: every successful `try_recv_msg` outcome reports a strictly
positive message size — the loop re-peeks while the peeked length is zero
(including after a read that returned 0 bytes), so a zero-length message is
never delivered. -/
theorem claim_C10_success_positive (buflen : Nat) (p : Pipe) (r : TryRecvResult)
    (w : List Nat) (q : Pipe)
    (h : try_recv_msg buflen p = some (.ok r, w, q)) : 0 < r.size :=
  try_recv_go_pos buflen (pipeMeasure p + 1) p r w q h

/-- Witness for C10: a pipe holding a zero-length message followed by `[9]`
delivers `[9]` with size 1 (the zero-length message is skipped), and the
size is positive. -/
theorem claim_C10_witness :
    try_recv_msg 4 ⟨[[], [9]], []⟩ = some (.ok ⟨1, true⟩, [9], ⟨[], []⟩)
    ∧ 0 < (TryRecvResult.mk 1 true).size :=
  ⟨by rfl,
   claim_C10_success_positive 4 ⟨[[], [9]], []⟩ ⟨1, true⟩ [9] ⟨[], []⟩ (by rfl)⟩

/-- Claim C2: `recv_msg` never truncates.  When the pending message fits in
the caller's buffer it returns `Fit` with the filled length (and the buffer
holds the message); when it does not fit it allocates a fresh buffer, reads
the message into it, and returns `Alloc` holding exactly the original
message — same length, identical content. -/
theorem claim_C2_recv_msg (buflen : Nat) (m : List Nat)
    (rest inc : List (List Nat)) (hm : 0 < m.length) :
    (m.length ≤ buflen →
      recv_msg buflen ⟨m :: rest, inc⟩
        = some (.ok (.Fit m.length), m, ⟨rest, inc⟩))
    ∧ (buflen < m.length →
      recv_msg buflen ⟨m :: rest, inc⟩
        = some (.ok (.Alloc m), [], ⟨rest, inc⟩)) := by
  constructor
  · intro hle
    have ht := (try_recv_go_front buflen (pipeMeasure ⟨m :: rest, inc⟩) m rest inc hm).1 hle
    unfold recv_msg try_recv_msg
    rw [ht]
    rfl
  · intro hlt
    have ht := (try_recv_go_front buflen (pipeMeasure ⟨m :: rest, inc⟩) m rest inc hm).2 hlt
    unfold recv_msg try_recv_msg
    rw [ht]
    simp [msg_read, List.take_length]

/-- Witness for C2: message `[3, 4]` is returned as `Fit 2` in a 2-byte
buffer, and as `Alloc [3, 4]` — identical content, exact length — when the
caller's buffer only holds 1 byte. -/
theorem claim_C2_witness :
    recv_msg 2 ⟨[[3, 4]], []⟩ = some (.ok (.Fit 2), [3, 4], ⟨[], []⟩)
    ∧ recv_msg 1 ⟨[[3, 4]], []⟩ = some (.ok (.Alloc [3, 4]), [], ⟨[], []⟩) :=
  ⟨(claim_C2_recv_msg 2 [3, 4] [] [] (by decide)).1 (by decide),
   (claim_C2_recv_msg 1 [3, 4] [] [] (by decide)).2 (by decide)⟩

/-! ## Connect protocol (claim C6)

`_connect` (src/src/os/windows/named_pipe/stream.rs:463-480) loops over
`connect_without_waiting` (a `CreateFileW` wrapper, lines 482-512) and
`wait_for_server` (a `WaitNamedPipeW` wrapper, lines 531-538).  Each loop
iteration's syscall outcomes are supplied as one `ConnectAttempt` record;
the pipe handle is a `Nat`. -/

/-- The OS outcomes one iteration of the `_connect` loop can observe:
the outcome of `connect_without_waiting`, and — if that failed busy — the
raw outcome of `WaitNamedPipeW` (`waitSuccess`) plus the OS error
`wait_for_server` would report on its failure. -/
structure ConnectAttempt where
  att : Except IoError Nat
  waitSuccess : Bool
  waitErr : IoError

/-- `wait_for_server` (src/src/os/windows/named_pipe/stream.rs:531-538):
wraps `WaitNamedPipeW` called with `timeout.0`; `success` is whether the
raw call returned nonzero and `lastOsError` what `last_os_error()` reports
otherwise. -/
def wait_for_server (timeout : WaitTimeout) (success : Bool) (lastOsError : IoError) :
    Except IoError Unit :=
  if success then .ok () else .error lastOsError

/-- `_connect` (src/src/os/windows/named_pipe/stream.rs:463-480): retries
the open as long as it fails with `ERROR_PIPE_BUSY` and the
`wait_for_server` call (made with the configured `timeout`) succeeds; any
other open failure, a wait failure, or an open success is returned at once.
`none` means the supplied outcome trace ran out before the loop finished. -/
def _connect (timeout : WaitTimeout) : List ConnectAttempt → Option (Except IoError Nat)
  | [] => none
  | c :: rest =>
    match c.att with
    | .error e =>
      if e.rawOsError = some ERROR_PIPE_BUSY then
        match wait_for_server timeout c.waitSuccess c.waitErr with
        | .error we => some (.error we)
        | .ok _ => _connect timeout rest
      else some (.error e)
    | .ok handle => some (.ok handle)

/-- Helper: a successful open ends the connect loop at once. -/
theorem _connect_cons_ok (timeout : WaitTimeout) (c : ConnectAttempt)
    (rest : List ConnectAttempt) (handle : Nat) (h : c.att = .ok handle) :
    _connect timeout (c :: rest) = some (.ok handle) := by
  unfold _connect
  rw [h]

/-- Helper: a non-busy open failure ends the connect loop at once,
unchanged. -/
theorem _connect_cons_nonbusy (timeout : WaitTimeout) (c : ConnectAttempt)
    (rest : List ConnectAttempt) (e : IoError) (h : c.att = .error e)
    (hb : e.rawOsError ≠ some ERROR_PIPE_BUSY) :
    _connect timeout (c :: rest) = some (.error e) := by
  unfold _connect
  rw [h]
  simp [hb]

/-- Helper: a busy open failure followed by a successful wait makes the
connect loop retry on the remaining trace. -/
theorem _connect_cons_busy_waitok (timeout : WaitTimeout) (c : ConnectAttempt)
    (rest : List ConnectAttempt) (e : IoError) (h : c.att = .error e)
    (hb : e.rawOsError = some ERROR_PIPE_BUSY) (hws : c.waitSuccess = true) :
    _connect timeout (c :: rest) = _connect timeout rest := by
  conv_lhs => unfold _connect
  rw [h]
  simp [hb, wait_for_server, hws]

/-- Helper: a busy open failure followed by a failed wait surfaces the wait
failure at once, unchanged. -/
theorem _connect_cons_busy_waitfail (timeout : WaitTimeout) (c : ConnectAttempt)
    (rest : List ConnectAttempt) (e : IoError) (h : c.att = .error e)
    (hb : e.rawOsError = some ERROR_PIPE_BUSY) (hws : c.waitSuccess = false) :
    _connect timeout (c :: rest) = some (.error c.waitErr) := by
  unfold _connect
  rw [h]
  simp [hb, wait_for_server, hws]

/-- Claim C6: the connect loop never surfaces `ERROR_PIPE_BUSY` (as long as
the wait primitive itself does not fail with that code, which Windows never
does): a busy open waits on `wait_for_server` with the configured timeout
and retries; a successful open, any non-busy open failure, and any failure
of the wait itself are each returned immediately and unchanged. -/
theorem claim_C6_connect_retry (timeout : WaitTimeout) (trace : List ConnectAttempt)
    (hw : ∀ c ∈ trace, c.waitErr.rawOsError ≠ some ERROR_PIPE_BUSY) :
    (∀ e, _connect timeout trace = some (.error e) →
      e.rawOsError ≠ some ERROR_PIPE_BUSY)
    ∧ (∀ c rest, trace = c :: rest →
        (∀ handle, c.att = .ok handle →
          _connect timeout trace = some (.ok handle))
        ∧ (∀ e, c.att = .error e → e.rawOsError ≠ some ERROR_PIPE_BUSY →
          _connect timeout trace = some (.error e))
        ∧ (∀ e, c.att = .error e → e.rawOsError = some ERROR_PIPE_BUSY →
          (c.waitSuccess = true → _connect timeout trace = _connect timeout rest)
          ∧ (c.waitSuccess = false →
            _connect timeout trace = some (.error c.waitErr)))) := by
  constructor
  · induction trace with
    | nil =>
      intro e h
      simp [_connect] at h
    | cons c rest ih =>
      intro e h
      have hwc : c.waitErr.rawOsError ≠ some ERROR_PIPE_BUSY := hw c (by simp)
      have hwr : ∀ d ∈ rest, d.waitErr.rawOsError ≠ some ERROR_PIPE_BUSY := by
        intro d hd
        exact hw d (by simp [hd])
      cases hatt : c.att with
      | error e0 =>
        by_cases hbusy : e0.rawOsError = some ERROR_PIPE_BUSY
        · cases hws : c.waitSuccess with
          | true =>
            rw [_connect_cons_busy_waitok timeout c rest e0 hatt hbusy hws] at h
            exact ih hwr e h
          | false =>
            rw [_connect_cons_busy_waitfail timeout c rest e0 hatt hbusy hws] at h
            have h2 : c.waitErr = e := by simpa using h
            subst h2
            exact hwc
        · rw [_connect_cons_nonbusy timeout c rest e0 hatt hbusy] at h
          have h2 : e0 = e := by simpa using h
          subst h2
          exact hbusy
      | ok handle =>
        rw [_connect_cons_ok timeout c rest handle hatt] at h
        simp at h
  · rintro c rest rfl
    refine ⟨?_, ?_, ?_⟩
    · intro handle hatt
      simp [_connect, hatt]
    · intro e hatt hbusy
      simp [_connect, hatt, hbusy]
    · intro e hatt hbusy
      constructor
      · intro hws
        simp [_connect, hatt, hbusy, wait_for_server, hws]
      · intro hws
        simp [_connect, hatt, hbusy, wait_for_server, hws]

/-- Witness for C6: a trace in which the first open fails busy, the wait
succeeds, and the second open succeeds with handle 42: the loop returns
`Ok(42)`. -/
theorem claim_C6_witness :
    _connect WaitTimeout.DEFAULT
      [⟨.error ⟨.Other, some 231, none⟩, true, ⟨.Other, some 121, none⟩⟩,
       ⟨.ok 42, true, ⟨.Other, some 121, none⟩⟩]
      = some (.ok 42) := by
  have h := claim_C6_connect_retry WaitTimeout.DEFAULT
    [⟨.error ⟨.Other, some 231, none⟩, true, ⟨.Other, some 121, none⟩⟩,
     ⟨.ok 42, true, ⟨.Other, some 121, none⟩⟩] (by decide)
  have hstep := ((h.2 _ _ rfl).2.2 ⟨.Other, some 231, none⟩ rfl (by decide)).1 rfl
  rw [hstep]
  rfl

/-! ## Construction from a foreign raw handle (claim C5) -/

/-- `PipeMode` (named-pipe read/write mode tag). -/
inductive PipeMode where
  | Bytes
  | Messages
  deriving DecidableEq, Repr

/-- The error kinds used by `PipeStream::from_raw_handle` and
`RawPipeStream::try_from_raw_handle`
(src/src/os/windows/named_pipe/stream/impls/mod.rs:95-101 and 253-271); the
enum itself is declared outside src/, its three variants are named at those
use sites. -/
inductive FromRawHandleErrorKind where
  | IsServerCheckFailed
  | MessageBoundariesCheckFailed
  | NoMessageBoundaries
  deriving DecidableEq, Repr

/-- `FromRawHandleError`: the error kind paired with the underlying
`io::Error` (which preserves the OS code of the failed check, e.g. an
invalid-handle code). -/
def FromRawHandleError : Type := FromRawHandleErrorKind × IoError

/-- `FileHandle` (src/src/os/windows/mod.rs:82): newtype over the raw
handle, modelled as a `Nat`. -/
structure FileHandle where
  handle : Nat
  deriving DecidableEq, Repr

/-- `RawPipeStream` (field layout visible throughout
src/src/os/windows/named_pipe/stream/impls/mod.rs): the owned `FileHandle`
plus the server-role flag. -/
structure RawPipeStream where
  handle : FileHandle
  is_server : Bool
  deriving DecidableEq, Repr

/-- `RawPipeStream::try_from_raw_handle`
(src/src/os/windows/named_pipe/stream/impls/mod.rs:95-101): performs the
server/client-role syscall round-trip (`is_server_from_sys`, whose outcome
is passed in as `is_server_res`); its failure becomes the
`IsServerCheckFailed` kind carrying the syscall error. -/
def RawPipeStream.try_from_raw_handle (handle : Nat)
    (is_server_res : Except IoError Bool) :
    Except FromRawHandleError RawPipeStream :=
  match is_server_res with
  | .error e => .error (.IsServerCheckFailed, e)
  | .ok is_server => .ok ⟨⟨handle⟩, is_server⟩

/-- `PipeStream::from_raw_handle`
(src/src/os/windows/named_pipe/stream/impls/mod.rs:253-271): after the raw
construction, a `Messages` read mode triggers the message-boundary
syscall round-trip (`has_msg_boundaries_from_sys`, outcome passed in as
`msg_bnd_res`); a failing check is `MessageBoundariesCheckFailed`, and a
check reporting `false` is the fatal `NoMessageBoundaries` error with an
`InvalidInput` io error.  The returned stream is represented by its
`RawPipeStream` (the typed wrapper adds only phantom data). -/
def PipeStream.from_raw_handle (read_mode : Option PipeMode) (handle : Nat)
    (is_server_res : Except IoError Bool) (msg_bnd_res : Except IoError Bool) :
    Except FromRawHandleError RawPipeStream :=
  match RawPipeStream.try_from_raw_handle handle is_server_res with
  | .error e => .error e
  | .ok raw =>
    if read_mode = some .Messages then
      match msg_bnd_res with
      | .error e => .error (.MessageBoundariesCheckFailed, e)
      | .ok msg_bnd =>
        if !msg_bnd then .error (.NoMessageBoundaries, ⟨.InvalidInput, none, none⟩)
        else .ok raw
    else .ok raw

/-- The panic message of the old-API role-check `expect`
(src/src/os/windows/named_pipe/stream.rs:212-213). -/
def is_server_panic_msg : String :=
  "failed to determine if pipe was server-side or client-side during construction from raw handle"

/-- The panic message of the old-API boundary-check `expect`
(src/src/os/windows/named_pipe/stream.rs:218-219). -/
def boundary_check_panic_msg : String :=
  "failed to determine whether the pipe preserves message boundaries"

/-- The panic message of the old-API boundary `assert!`
(src/src/os/windows/named_pipe/stream.rs:220-222). -/
def no_boundaries_panic_msg : String :=
  "stream wrapper type uses a message-based read mode, but the underlying pipe does not preserve message boundaries"

/-- `impl FromRawHandle for $ty` generated by `create_stream_type!`
(src/src/os/windows/named_pipe/stream.rs:204-228): the same two checks, but
failures panic (`expect` / `assert!`), modelled as `Except String`; the
result is the handle and role of the built instance. -/
def stream_type_from_raw_handle (read_mode : Option PipeMode) (handle : Nat)
    (is_server_res : Except IoError Bool) (msg_bnd_res : Except IoError Bool) :
    Except String (Nat × Bool) :=
  match is_server_res with
  | .error _ => .error is_server_panic_msg
  | .ok is_server =>
    if read_mode = some .Messages then
      match msg_bnd_res with
      | .error _ => .error boundary_check_panic_msg
      | .ok has_msg_boundaries =>
        if !has_msg_boundaries then .error no_boundaries_panic_msg
        else .ok (handle, is_server)
    else .ok (handle, is_server)

/-- Claim C5: constructing a `Messages`-read-mode stream from a foreign raw
handle always runs the message-boundary check, and a check reporting `false`
fails the construction fatally in both APIs (a `NoMessageBoundaries` error,
resp. a panic) — never returning a usable stream; a failure of the
server/client-role check or of the boundary check itself gets its own error
kind (carrying the underlying OS error, e.g. an invalid-handle code,
verbatim), and the three kinds are pairwise distinct. -/
theorem claim_C5_boundary_check (read_mode : Option PipeMode) (handle : Nat)
    (is_server_res msg_bnd_res : Except IoError Bool) :
    (read_mode = some .Messages → msg_bnd_res = .ok false →
      (∀ s, is_server_res = .ok s →
        PipeStream.from_raw_handle read_mode handle is_server_res msg_bnd_res
          = .error (.NoMessageBoundaries, ⟨.InvalidInput, none, none⟩))
      ∧ stream_type_from_raw_handle read_mode handle is_server_res msg_bnd_res
          ≠ .ok (handle, true)
      ∧ stream_type_from_raw_handle read_mode handle is_server_res msg_bnd_res
          ≠ .ok (handle, false))
    ∧ (∀ e, is_server_res = .error e →
      PipeStream.from_raw_handle read_mode handle is_server_res msg_bnd_res
        = .error (.IsServerCheckFailed, e))
    ∧ (read_mode = some .Messages → ∀ s, is_server_res = .ok s →
      ∀ e, msg_bnd_res = .error e →
      PipeStream.from_raw_handle read_mode handle is_server_res msg_bnd_res
        = .error (.MessageBoundariesCheckFailed, e))
    ∧ (FromRawHandleErrorKind.IsServerCheckFailed
        ≠ FromRawHandleErrorKind.NoMessageBoundaries
      ∧ FromRawHandleErrorKind.MessageBoundariesCheckFailed
        ≠ FromRawHandleErrorKind.NoMessageBoundaries
      ∧ FromRawHandleErrorKind.IsServerCheckFailed
        ≠ FromRawHandleErrorKind.MessageBoundariesCheckFailed) := by
  refine ⟨?_, ?_, ?_, by decide, by decide, by decide⟩
  · rintro rfl rfl
    refine ⟨?_, ?_, ?_⟩
    · rintro s rfl
      rfl
    · cases is_server_res with
      | error e => simp [stream_type_from_raw_handle]
      | ok s => simp [stream_type_from_raw_handle]
    · cases is_server_res with
      | error e => simp [stream_type_from_raw_handle]
      | ok s => simp [stream_type_from_raw_handle]
  · rintro e rfl
    rfl
  · rintro rfl s rfl e rfl
    rfl

/-- Witness for C5: with a role check reporting client and a boundary check
reporting `false`, a `Messages`-mode construction from handle 5 fails with
`NoMessageBoundaries` in the new API and cannot produce an instance in the
old API. -/
theorem claim_C5_witness :
    PipeStream.from_raw_handle (some .Messages) 5 (.ok false) (.ok false)
      = .error (.NoMessageBoundaries, ⟨.InvalidInput, none, none⟩)
    ∧ stream_type_from_raw_handle (some .Messages) 5 (.ok false) (.ok false)
      ≠ .ok (5, false) :=
  ⟨((claim_C5_boundary_check (some .Messages) 5 (.ok false) (.ok false)).1
      rfl rfl).1 false rfl,
   ((claim_C5_boundary_check (some .Messages) 5 (.ok false) (.ok false)).1
      rfl rfl).2.2⟩

/-! ## Ancillary data dispatcher (claim C7)

`impl FromCmsg for Ancillary`
(src/src/os/unix/udsocket/cmsg/ancillary/dispatcher.rs:32-59).  The
constants `LEVEL`, `FileDescriptors::TYPE` and `Credentials::TYPE`, and the
two leaf parsers, live outside src/ and are modelled from the spec. -/

/-- A control message record: level, type, and payload bytes
(spec §3 ControlBuffer: record = level, type, payload). -/
structure Cmsg where
  cmsg_level : Int
  cmsg_type : Int
  payload : List Nat
  deriving DecidableEq, Repr

/-- Modelled from the spec: `LEVEL`, "the one recognized level for this
platform's socket ancillary namespace" — `SOL_SOCKET` (1 on Linux). -/
def LEVEL : Int := 1

/-- Modelled from the spec: `FileDescriptors::TYPE`, the type for the
descriptor-array ancillary message — `SCM_RIGHTS` (1 on Linux). -/
def FileDescriptors_TYPE : Int := 1

/-- Modelled from the spec: `Credentials::TYPE`, the type for the
credentials ancillary message — `SCM_CREDENTIALS` (2 on Linux). -/
def Credentials_TYPE : Int := 2

/-- Modelled from the spec: the byte size of the platform credentials
structure (pid, uid, gid — three 4-byte fields in native byte order). -/
def UCRED_SIZE : Nat := 12

/-- `SizeMismatch` (named in
src/src/os/unix/udsocket/cmsg/ancillary/dispatcher.rs:2): the expected and
actual payload sizes of a malformed credentials record. -/
structure SizeMismatch where
  expected : Nat
  got : Nat
  deriving DecidableEq, Repr

/-- `MalformedPayload`
(src/src/os/unix/udsocket/cmsg/ancillary/dispatcher.rs:64-66): the only
payload error the dispatcher can produce is a credentials size mismatch
(the descriptor parser's payload error type is `Infallible`, per the
`From<Infallible>` impl at lines 75-79). -/
inductive MalformedPayload where
  | Credentials (e : SizeMismatch)
  deriving DecidableEq, Repr

/-- `ParseErrorKind` (named in
src/src/os/unix/udsocket/cmsg/ancillary/dispatcher.rs:37-56, declared
outside src/), instantiated at payload-error type `MalformedPayload`. -/
inductive ParseErrorKind where
  | WrongLevel (expected : Option Int) (got : Int)
  | WrongType (expected : Option Int) (got : Int)
  | MalformedPayload (e : MalformedPayload)
  deriving DecidableEq, Repr

/-- `ParseError`: the error kind together with the unconsumed control
message handed back to the caller (field `cmsg` at
src/src/os/unix/udsocket/cmsg/ancillary/dispatcher.rs:38), which is what
lets the caller skip the record and continue. -/
structure ParseError where
  cmsg : Cmsg
  kind : ParseErrorKind
  deriving DecidableEq, Repr

/-- `Ancillary` (src/src/os/unix/udsocket/cmsg/ancillary/dispatcher.rs:16-
19): the dispatch enumeration of known ancillary messages. -/
inductive Ancillary where
  | FileDescriptors (fds : List Nat)
  | Credentials (pid : Nat) (uid : Nat) (gid : Nat)
  deriving DecidableEq, Repr

/-- Little-endian decoding of a byte list into 4-byte integers (the native
int width of descriptors and of each credentials field); a trailing group
shorter than 4 bytes is ignored here — whether it is an error is the leaf
parser's business. -/
def bytes_to_ints4 : List Nat → List Nat
  | b0 :: b1 :: b2 :: b3 :: rest =>
    (b0 + 256 * b1 + 65536 * b2 + 16777216 * b3) :: bytes_to_ints4 rest
  | _ => []

/-- Modelled from the spec: `FileDescriptors::try_parse` — "parse as a
sequence of descriptor integers" (spec §4.4); its payload error type is
`Infallible` (src evidence cited on `MalformedPayload`), so it succeeds on
the records the dispatcher routes to it. -/
def FileDescriptors_try_parse (cmsg : Cmsg) : Except ParseError Ancillary :=
  .ok (.FileDescriptors (bytes_to_ints4 cmsg.payload))

/-- Modelled from the spec: `Credentials::try_parse` — "parse as the
fixed-size platform credential structure (mismatched size is a distinct
SizeMismatch error reporting both sizes)" (spec §4.4). -/
def Credentials_try_parse (cmsg : Cmsg) : Except ParseError Ancillary :=
  if cmsg.payload.length = UCRED_SIZE then
    .ok (.Credentials ((bytes_to_ints4 cmsg.payload).getD 0 0)
      ((bytes_to_ints4 cmsg.payload).getD 1 0)
      ((bytes_to_ints4 cmsg.payload).getD 2 0))
  else
    .error ⟨cmsg, .MalformedPayload (.Credentials ⟨UCRED_SIZE, cmsg.payload.length⟩)⟩

/-- `Ancillary::parse_fd`
(src/src/os/unix/udsocket/cmsg/ancillary/dispatcher.rs:21-25). -/
def Ancillary_parse_fd (cmsg : Cmsg) : Except ParseError Ancillary :=
  FileDescriptors_try_parse cmsg

/-- `Ancillary::parse_credentials`
(src/src/os/unix/udsocket/cmsg/ancillary/dispatcher.rs:26-30). -/
def Ancillary_parse_credentials (cmsg : Cmsg) : Except ParseError Ancillary :=
  Credentials_try_parse cmsg

/-- `Ancillary::try_parse`
(src/src/os/unix/udsocket/cmsg/ancillary/dispatcher.rs:34-58): a level
other than `LEVEL` yields `WrongLevel` before any payload interpretation;
otherwise the type dispatches over the fixed table
(`FileDescriptors::TYPE`, `Credentials::TYPE`); any other type yields
`WrongType` with no expected type. -/
def Ancillary_try_parse (cmsg : Cmsg) : Except ParseError Ancillary :=
  if cmsg.cmsg_level ≠ LEVEL then
    .error ⟨cmsg, .WrongLevel (some LEVEL) cmsg.cmsg_level⟩
  else if cmsg.cmsg_type = FileDescriptors_TYPE then Ancillary_parse_fd cmsg
  else if cmsg.cmsg_type = Credentials_TYPE then Ancillary_parse_credentials cmsg
  else .error ⟨cmsg, .WrongType none cmsg.cmsg_type⟩

/-- Claim C7: a record whose level differs from the single recognized
platform level yields `WrongLevel (expected) (got)` whatever its type and
payload (the payload is not interpreted); a matching level dispatches over
the fixed two-entry table; any other type yields the non-fatal
`WrongType none got`, and both error outcomes hand the unconsumed record
back inside the error so the caller can skip it and continue. -/
theorem claim_C7_dispatcher (level typ : Int) (payload : List Nat) :
    (level ≠ LEVEL →
      Ancillary_try_parse ⟨level, typ, payload⟩
        = .error ⟨⟨level, typ, payload⟩, .WrongLevel (some LEVEL) level⟩)
    ∧ Ancillary_try_parse ⟨LEVEL, FileDescriptors_TYPE, payload⟩
        = Ancillary_parse_fd ⟨LEVEL, FileDescriptors_TYPE, payload⟩
    ∧ Ancillary_try_parse ⟨LEVEL, Credentials_TYPE, payload⟩
        = Ancillary_parse_credentials ⟨LEVEL, Credentials_TYPE, payload⟩
    ∧ (typ ≠ FileDescriptors_TYPE → typ ≠ Credentials_TYPE →
      Ancillary_try_parse ⟨LEVEL, typ, payload⟩
        = .error ⟨⟨LEVEL, typ, payload⟩, .WrongType none typ⟩) := by
  refine ⟨?_, ?_, ?_, ?_⟩
  · intro hl
    simp [Ancillary_try_parse, hl]
  · simp [Ancillary_try_parse]
  · have hne : Credentials_TYPE ≠ FileDescriptors_TYPE := by decide
    simp [Ancillary_try_parse, hne]
  · intro h1 h2
    simp [Ancillary_try_parse, h1, h2]

/-- Witness for C7: a record at level 9 is rejected as `WrongLevel`
regardless of its payload, and an unknown type 7 at the right level is
rejected as the non-fatal `WrongType` carrying the record back. -/
theorem claim_C7_witness :
    Ancillary_try_parse ⟨9, 1, [3]⟩
      = .error ⟨⟨9, 1, [3]⟩, .WrongLevel (some LEVEL) 9⟩
    ∧ Ancillary_try_parse ⟨1, 7, [3]⟩
      = .error ⟨⟨1, 7, [3]⟩, .WrongType none 7⟩ :=
  ⟨(claim_C7_dispatcher 9 1 [3]).1 (by decide),
   (claim_C7_dispatcher 1 7 [3]).2.2.2 (by decide) (by decide)⟩

/-! ## Raw-handle ownership transfer (claim C8)

`into_raw_handle` implementations.  Ownership and drop glue are modelled by
an explicit effect log: each operation is given by the list of native-handle
syscalls (close, disconnect) the crate performs during it. -/

/-- A native-handle side effect performed by the crate's drop glue. -/
inductive HandleEffect where
  | close (handle : Nat)
  | disconnect (handle : Nat)
  deriving DecidableEq, Repr

/-- `impl Drop for FileHandle` (src/src/os/windows/mod.rs:136-142): closes
the owned handle. -/
def FileHandle.drop_effects (fh : FileHandle) : List HandleEffect :=
  [.close fh.handle]

/-- `impl IntoRawHandle for FileHandle` (src/src/os/windows/mod.rs:149-155):
`self` goes into `ManuallyDrop`, so no drop glue runs; the handle is
returned with an empty effect log. -/
def FileHandle.into_raw_handle (fh : FileHandle) : Nat × List HandleEffect :=
  (fh.handle, [])

/-- `impl Drop for RawPipeStream`
(src/src/os/windows/named_pipe/stream/impls/mod.rs:123-129) plus the field
drop glue: a server-role stream first disconnects, then the owned
`FileHandle` is dropped and closes the handle. -/
def RawPipeStream.drop_effects (s : RawPipeStream) : List HandleEffect :=
  (if s.is_server then [.disconnect s.handle.handle] else [])
    ++ FileHandle.drop_effects s.handle

/-- `impl IntoRawHandle for RawPipeStream`
(src/src/os/windows/named_pipe/stream/impls/mod.rs:136-146): `self` goes
into `ManuallyDrop`, the `FileHandle` is moved out with `ptr::read`, and its
own `into_raw_handle` is called — no drop glue of either layer runs. -/
def RawPipeStream.into_raw_handle (s : RawPipeStream) : Nat × List HandleEffect :=
  FileHandle.into_raw_handle s.handle

/-- `impl IntoRawHandle for PipeStream`
(src/src/os/windows/named_pipe/stream/impls/mod.rs:350-355): delegates to
the raw stream. -/
def PipeStream.into_raw_handle (raw : RawPipeStream) : Nat × List HandleEffect :=
  RawPipeStream.into_raw_handle raw

/-- The state of a macro-generated stream type
(`create_stream_type_base!`, src/src/os/windows/named_pipe/stream.rs:54-56):
an `Instance` wrapping a `PipeOps` that owns the handle, plus its role
(`is_server`, queried through the instance); sync pipes are never split. -/
structure OldStream where
  handle : Nat
  is_server : Bool
  deriving DecidableEq, Repr

/-- Modelled from the spec: the drop glue of `Instance`/`PipeOps` (both
declared outside src/).  Per spec §2, the Raw Resource Handle "owns exactly
one native handle/descriptor; guarantees exactly-once close", so dropping
the instance closes the handle; the generated `Drop` impl
(src/src/os/windows/named_pipe/stream.rs:114-122) first disconnects
server-role unsplit streams. -/
def old_stream_drop_effects (s : OldStream) : List HandleEffect :=
  (if s.is_server then [.disconnect s.handle] else []) ++ [.close s.handle]

/-- `impl IntoRawHandle for $ty` generated by `create_stream_type!`
(src/src/os/windows/named_pipe/stream.rs:229-237): asserts the stream is
client-role (else panics, modelled as `Except.error`), copies the raw
handle out — and then lets `self` drop, running the drop glue, because
`self` is not wrapped in `ManuallyDrop` here, unlike the other three
implementations. -/
def old_stream_into_raw_handle (s : OldStream) : Except String (Nat × List HandleEffect) :=
  if !s.is_server then .ok (s.handle, old_stream_drop_effects s)
  else .error "cannot reclaim named pipe instance from server instancer"

/-- Claim C8, evaluated at the failing input: for the new-API types
(`FileHandle`, `RawPipeStream`, `PipeStream`) `into_raw_handle` runs no
drop glue, but the macro-generated stream type closes the returned handle
as it returns, because its implementation lacks the `ManuallyDrop` guard
the other three use: a client-role stream around handle 5 returns handle 5
together with a `close 5` drop-glue effect. -/
theorem claim_C8_into_raw_handle :
    FileHandle.into_raw_handle ⟨5⟩ = (5, [])
    ∧ RawPipeStream.into_raw_handle ⟨⟨5⟩, true⟩ = (5, [])
    ∧ PipeStream.into_raw_handle ⟨⟨5⟩, false⟩ = (5, [])
    ∧ old_stream_into_raw_handle ⟨5, false⟩ = .ok (5, [.close 5]) := by
  refine ⟨rfl, rfl, rfl, ?_⟩
  simp [old_stream_into_raw_handle, old_stream_drop_effects]
